import Mathlib

/-!
Verification of the DCCLiveSteam firmware core against its natural-language
specification.  Each Python function relevant to the examined properties is
shallowly embedded as an executable Lean definition: machine times
(`time.ticks_ms`) are modelled as integers with `ticks_diff a b = a - b`,
Python floats are modelled as rationals, and Python's `int(...)` truncation
toward zero is modelled by `pyInt`.  Stateful methods become explicit
state-passing functions; calls out to actuators are recorded as values or
action traces.
-/

/-- Python `int(x)` on a float: truncation toward zero. -/
def pyInt (q : ℚ) : ℤ :=
  if q < 0 then -⌊-q⌋ else ⌊q⌋

/-- Python `max(a, min(b, x))` clamp used by the heater-duty setters. -/
def pyClamp (lo hi x : ℤ) : ℤ := max lo (min hi x)

/-! ## DCCDecoder (src/app/dcc_decoder.py)

State fields written by `__init__` and `_decode_packet`.  Times are in ms. -/

structure DccState where
  longAddr : Bool
  addr : Nat
  currentSpeed : Nat
  direction : Nat
  whistle : Bool
  lastValid : Int
  deriving Repr, DecidableEq

/-- `DCCDecoder.__init__`: speed 0, direction 1, whistle off, `last_valid`
stamped with the boot time.  The address is CV1 (short mode) or
`((CV17 & 0x3F) << 8) | CV18` (long mode, CV29 bit 5 set). -/
def dccInit (cv29 cv1 cv17 cv18 : Nat) (bootTime : Int) : DccState :=
  let longAddr := (cv29 &&& 0x20) != 0
  { longAddr := longAddr
    addr := if longAddr then ((cv17 &&& 0x3F) <<< 8) ||| cv18 else cv1
    currentSpeed := 0
    direction := 1
    whistle := false
    lastValid := bootTime }

/-- First eight bits of the buffer assembled MSB-first into a byte
(the inner `for j in range(8)` loop of `_decode_packet`). -/
def byteOfBits (bits : List Nat) : Nat :=
  (bits.take 8).foldl (fun b x => b * 2 + x) 0

/-- The byte-extraction loop of `_decode_packet`:
`for i in range(0, len(bits) - 1, 9)` with a break once `i + 8 >= len(bits)`,
so a byte is produced at offsets 0, 9, 18, ... while at least nine bits
remain. -/
def extractBytes (bits : List Nat) : List Nat :=
  if bits.length ≥ 9 then byteOfBits bits :: extractBytes (bits.drop 9) else []
  termination_by bits.length
  decreasing_by
    simp only [List.length_drop]
    omega

/-- `DCCDecoder._decode_packet` applied to a bit buffer at time `now`:
extract bytes, require at least three, match the (short or long) address,
stamp `last_valid`, then decode the command byte.  Both the basic speed
command (`cmd & 0xC0 == 0x40`) and the advanced speed command
(`cmd & 0xE0 == 0xA0`) store `cmd & 0x1F` as the speed and bit 5 as the
direction; function group 1 (`cmd & 0xE0 == 0x80`) stores bit 4 as the
whistle. -/
def decodePacket (st : DccState) (bits : List Nat) (now : Int) : DccState :=
  let packet := extractBytes bits
  if packet.length < 3 then st
  else
    let p0 := packet.getD 0 0
    let p1 := packet.getD 1 0
    let ok : Bool × Nat × Nat :=
      if st.longAddr then
        if packet.length < 4 || (p0 &&& 0xC0) != 0xC0 then (false, 0, 0)
        else (true, ((p0 &&& 0x3F) <<< 8) ||| p1, packet.getD 2 0)
      else (true, p0, p1)
    if !ok.1 then st
    else
      let addr := ok.2.1
      let cmd := ok.2.2
      if addr ≠ st.addr then st
      else
        let st := { st with lastValid := now }
        if (cmd &&& 0xC0) == 0x40 then
          { st with direction := (cmd &&& 0x20) >>> 5, currentSpeed := cmd &&& 0x1F }
        else if (cmd &&& 0xE0) == 0xA0 then
          { st with direction := (cmd &&& 0x20) >>> 5, currentSpeed := cmd &&& 0x1F }
        else if (cmd &&& 0xE0) == 0x80 then
          { st with whistle := (cmd &&& 0x10) != 0 }
        else st

/-- `DCCDecoder.is_active`: `ticks_diff(ticks_ms(), last_valid) < 500`,
a hard-coded 500 ms window. -/
def isActive (now lastValid : Int) : Bool :=
  decide (now - lastValid < 500)

/-! ## Watchdog (src/app/safety.py)

`Watchdog.check` calls `loco.die(cause)`; the embedding records the causes of
all `die` calls made during one invocation, in order, as a list of strings. -/

inductive WdMode
  | NOMINAL
  | DEGRADED
  | CRITICAL
  deriving Repr, DecidableEq

structure WdState where
  pwr_t : Int
  dcc_t : Int
  shutdownInProgress : Bool
  mode : WdMode
  degradedStart : Option ℚ
  degradedTimeout : ℚ
  deriving Repr, DecidableEq

/-- `Watchdog.__init__`: both signal timers stamped with the boot time,
shutdown guard clear, NOMINAL mode, no degraded timer, 20 s timeout. -/
def wdInit (bootTime : Int) : WdState :=
  { pwr_t := bootTime, dcc_t := bootTime, shutdownInProgress := false,
    mode := WdMode.NOMINAL, degradedStart := none, degradedTimeout := 20 }

/-- The power/DCC signal section at the end of `Watchdog.check`.  In the
source, the `loco.die("PWR_LOSS")` call is not followed by `return`, so when
the power timer has expired control still falls through into the DCC check;
this is embedded by concatenating the cause lists of the two sections. -/
def wdCheckSignals (st : WdState) (track_v : Int) (dcc_active : Bool)
    (cv44 cv45 : Int) (now : Int) : WdState × List String :=
  let pr : WdState × List String :=
    if track_v < 1500 then
      if now - st.pwr_t > cv45 * 100 then
        ({ st with shutdownInProgress := true }, ["PWR_LOSS"])
      else (st, [])
    else ({ st with pwr_t := now }, [])
  let st1 := pr.1
  if !dcc_active then
    if now - st1.dcc_t > cv44 * 100 then
      ({ st1 with shutdownInProgress := true }, pr.2 ++ ["DCC_LOST"])
    else (st1, pr.2)
  else ({ st1 with dcc_t := now }, pr.2)

/-- `Watchdog.check`: guarded by `_shutdown_in_progress`; CRITICAL mode dies
at once with MULTIPLE_SENSORS_FAILED; DEGRADED mode skips the thermal checks;
NOMINAL mode checks the three thermal limits (each die returns immediately);
then both remaining modes run the signal section. -/
def wdCheck (st : WdState) (t_logic t_boiler t_super : ℚ) (track_v : Int)
    (dcc_active : Bool) (cv41 cv42 cv43 : ℚ) (cv44 cv45 : Int)
    (now : Int) : WdState × List String :=
  if st.shutdownInProgress then (st, [])
  else
    match st.mode with
    | WdMode.DEGRADED => wdCheckSignals st track_v dcc_active cv44 cv45 now
    | WdMode.CRITICAL =>
        ({ st with shutdownInProgress := true }, ["MULTIPLE_SENSORS_FAILED"])
    | WdMode.NOMINAL =>
        if t_logic > cv41 then
          ({ st with shutdownInProgress := true }, ["LOGIC_HOT"])
        else if t_boiler > cv42 then
          ({ st with shutdownInProgress := true }, ["DRY_BOIL"])
        else if t_super > cv43 then
          ({ st with shutdownInProgress := true }, ["SUPER_HOT"])
        else wdCheckSignals st track_v dcc_active cv44 cv45 now

/-- `Watchdog.check_sensor_health`.  `if cv.get(88, 20):` updates the timeout
only when the stored CV88 value is truthy (non-zero).  When
`failed_sensor_count == 0` any non-NOMINAL mode — DEGRADED or CRITICAL — is
reset to NOMINAL and the degraded timer is cleared.  In DEGRADED mode the
source computes `now - self.degraded_start_time`; `degraded_start_time` is
always set on entering DEGRADED, modelled here with `Option.getD 0`. -/
def wdCheckSensorHealth (st : WdState) (failedCount : Nat) (cv88 : ℚ)
    (now : ℚ) : WdState :=
  let st := if cv88 ≠ 0 then { st with degradedTimeout := cv88 } else st
  if failedCount = 0 then
    if st.mode ≠ WdMode.NOMINAL then
      { st with mode := WdMode.NOMINAL, degradedStart := none }
    else st
  else if failedCount = 1 then
    match st.mode with
    | WdMode.NOMINAL => { st with mode := WdMode.DEGRADED, degradedStart := some now }
    | WdMode.DEGRADED =>
        if now - st.degradedStart.getD 0 > st.degradedTimeout then
          { st with mode := WdMode.CRITICAL }
        else st
    | WdMode.CRITICAL => st
  else { st with mode := WdMode.CRITICAL }

/-! ## SensorSuite (src/app/sensors.py)

`read_temps` is embedded as a function of the three converted temperature
readings (the values produced by `_adc_to_temp` from the raw ADC codes); the
claim under examination quantifies over arbitrary read sequences, so the ADC
conversion itself is left abstract. -/

inductive SensorHealth
  | NOMINAL
  | DEGRADED
  deriving Repr, DecidableEq

inductive TempChannel
  | boiler
  | superheater
  | logic
  deriving Repr, DecidableEq

/-- Lower bound of the plausibility window of `is_reading_valid`. -/
def windowLo : TempChannel → ℚ
  | TempChannel.boiler => 0
  | TempChannel.superheater => 0
  | TempChannel.logic => 0

/-- Upper bound of the plausibility window of `is_reading_valid`
(boiler 150 °C, superheater 280 °C, logic 100 °C). -/
def windowHi : TempChannel → ℚ
  | TempChannel.boiler => 150
  | TempChannel.superheater => 280
  | TempChannel.logic => 100

/-- `SensorSuite.is_reading_valid` restricted to the temperature channels. -/
def is_reading_valid (reading : ℚ) (c : TempChannel) : Bool :=
  decide (windowLo c ≤ reading) && decide (reading ≤ windowHi c)

structure SensorsState where
  boilerCache : ℚ
  superCache : ℚ
  logicCache : ℚ
  boilerHealth : SensorHealth
  superHealth : SensorHealth
  logicHealth : SensorHealth
  failedCount : Nat
  deriving Repr, DecidableEq

/-- `SensorSuite.__init__`: every `last_valid_reading` temperature starts at
25.0 °C, all channels NOMINAL, no failures. -/
def sensorsInit : SensorsState :=
  { boilerCache := 25, superCache := 25, logicCache := 25,
    boilerHealth := SensorHealth.NOMINAL, superHealth := SensorHealth.NOMINAL,
    logicHealth := SensorHealth.NOMINAL, failedCount := 0 }

/-- One per-channel block of `read_temps`: a valid reading is returned and
cached with health NOMINAL; an invalid one returns the cached last-valid
value and marks the channel DEGRADED.  Result: (returned value, new cache,
new health, failed flag). -/
def readChannel (cache reading : ℚ) (c : TempChannel) : ℚ × ℚ × SensorHealth × Bool :=
  if is_reading_valid reading c then (reading, reading, SensorHealth.NOMINAL, false)
  else (cache, cache, SensorHealth.DEGRADED, true)

/-- `SensorSuite.read_temps` on the three converted readings:
returns (boiler, superheater, logic) and the updated state, with
`failed_sensor_count` set to the number of channels that failed this read. -/
def read_temps (st : SensorsState) (rb rs rl : ℚ) : (ℚ × ℚ × ℚ) × SensorsState :=
  let b := readChannel st.boilerCache rb TempChannel.boiler
  let s := readChannel st.superCache rs TempChannel.superheater
  let l := readChannel st.logicCache rl TempChannel.logic
  ((b.1, s.1, l.1),
    { boilerCache := b.2.1, superCache := s.2.1, logicCache := l.2.1,
      boilerHealth := b.2.2.1, superHealth := s.2.2.1, logicHealth := l.2.2.1,
      failedCount := (if b.2.2.2 then 1 else 0) + (if s.2.2.2 then 1 else 0)
        + (if l.2.2.2 then 1 else 0) })

/-- Folding `read_temps` over a sequence of converted reading triples. -/
def readTempsRun (inputs : List (ℚ × ℚ × ℚ)) : SensorsState :=
  inputs.foldl (fun st r => (read_temps st r.1 r.2.1 r.2.2).2) sensorsInit

/-! ## PressureManager (src/app/managers/pressure_manager.py)

State carried between `process` calls, and the pair of duty values the call
passes to `actuators.set_boiler_duty` / `set_superheater_duty`. -/

structure PmState where
  integral : ℚ
  lastError : ℚ
  spikeTimer : ℚ
  sensorAvailable : Bool
  deriving Repr, DecidableEq

structure PmOut where
  boilerDuty : ℤ
  superDuty : ℤ
  deriving Repr, DecidableEq

/-- `PressureManager.__init__`: zero PID accumulators, no blow-down spike
pending, pressure sensor assumed available. -/
def pmInit : PmState :=
  { integral := 0, lastError := 0, spikeTimer := 0, sensorAvailable := true }

/-- The staged boiler/superheater duty pair for a pressure ratio and DCC
speed, computed twice in `process` (once before the spike logic, and again
verbatim when the spike timer expires within the call).  The constants are
`int(0.25*1023) = 255`, `int(0.5*1023) = 511`, `int(0.9*1023) = 920`. -/
def stagedDuty (pidBoilerDuty : ℤ) (ratio dccSpeed : ℚ) : ℤ × ℤ :=
  if ratio < 1/2 then (1023, 0)
  else if ratio < 3/4 then (pidBoilerDuty, 255)
  else if ratio < 9/10 then (pidBoilerDuty, 511)
  else (pidBoilerDuty, if dccSpeed > 0 then 920 else 511)

/-- `PressureManager.process`.  `target_psi` is `cv[33]` and
`superheater_temp_limit` is `cv.get(43, 250)`.  The sensor-unavailable branch
reads `boiler_temp` / `superheater_temp` through string keys that are never
present in the CV table, so both `cv.get` calls yield the 0.0 default and the
two heaters are always driven at 30 % (306) and 25 % (255).  A negative
pressure or non-positive dt raises ValueError, caught by the `except` which
latches `pressure_sensor_available = False` and applies the conservative
temperature-only fallback.  Otherwise: PID with the integral clamped to
±100, staged duties by pressure band, and the blow-down spike — the timer is
re-armed to 1.0 s whenever `regulator_open` is non-zero, forces the
superheater duty to 1023 while positive, and on expiry within the call the
staged duty is recomputed and resumed. -/
def pmProcess (st : PmState) (target_psi superheater_temp_limit : ℚ)
    (current_psi : ℚ) (regulator_open : Nat) (superheater_temp : ℚ)
    (dt : ℚ) (dcc_speed : ℚ) : PmState × PmOut :=
  if !st.sensorAvailable then
    (st,
      { boilerDuty := if (0 : ℚ) ≥ 110 - 5 then 0 else 306,
        superDuty := if (0 : ℚ) ≥ superheater_temp_limit then 0 else 255 })
  else if current_psi < 0 ∨ dt ≤ 0 then
    ({ st with sensorAvailable := false },
      { boilerDuty := if superheater_temp ≥ superheater_temp_limit - 10 then 0 else 306,
        superDuty := if superheater_temp ≥ superheater_temp_limit then 0 else 255 })
  else
    let error := target_psi - current_psi
    let integral := max (-100) (min 100 (st.integral + error * dt))
    let derivative := (error - st.lastError) / dt
    let output := 20 * error + (1/2) * integral + 5 * derivative
    let ratio := current_psi / max 1 target_psi
    let pidDuty : ℤ := pyInt (max 0 (min 1023 (output * (1023/100))))
    let staged := stagedDuty pidDuty ratio dcc_speed
    let st := { st with integral := integral, lastError := error }
    let spike1 := if regulator_open ≠ 0 then (1 : ℚ) else st.spikeTimer
    if spike1 > 0 then
      let spike2 := spike1 - dt
      if spike2 ≤ 0 then
        ({ st with spikeTimer := 0 },
          { boilerDuty := staged.1, superDuty := staged.2 })
      else
        ({ st with spikeTimer := spike2 },
          { boilerDuty := staged.1, superDuty := 1023 })
    else
      ({ st with spikeTimer := spike1 },
        { boilerDuty := staged.1, superDuty := staged.2 })

/-- The `regulator_open` value computed in `run()` (src/app/main.py):
`1 if dcc_speed > 0 else 0` — the current level of the regulator, not the
closed-to-open transition announced by the adjacent comment. -/
def mainRegulatorOpen (dcc_speed : Nat) : Nat :=
  if dcc_speed > 0 then 1 else 0

/-- Iterated control-loop ticks of the pressure path as wired in `run()`:
each tick calls `pmProcess` with `regulator_open = mainRegulatorOpen
dcc_speed` (note `run()` leaves `dcc_speed` out of the `pmProcess`
arguments, so the staged logic sees `dcc_speed = 0`).  Returns the
superheater duties of the successive calls, newest last. -/
def pmRunMainWiring (target_psi superheater_temp_limit current_psi : ℚ)
    (dcc_speed : Nat) (dt : ℚ) : Nat → PmState × List ℤ
  | 0 => (pmInit, [])
  | n + 1 =>
      let prev := pmRunMainWiring target_psi superheater_temp_limit current_psi dcc_speed dt n
      let step := pmProcess prev.1 target_psi superheater_temp_limit current_psi
        (mainRegulatorOpen dcc_speed) 0 dt 0
      (step.1, prev.2 ++ [step.2.superDuty])

/-- The same iteration, but with `regulator_open` supplied as the documented
closed-to-open transition pulse: 1 on the first call only. -/
def pmRunPulseWiring (target_psi superheater_temp_limit current_psi : ℚ)
    (dt : ℚ) : Nat → PmState × List ℤ
  | 0 => (pmInit, [])
  | n + 1 =>
      let prev := pmRunPulseWiring target_psi superheater_temp_limit current_psi dt n
      let step := pmProcess prev.1 target_psi superheater_temp_limit current_psi
        (if n = 0 then 1 else 0) 0 dt 0
      (step.1, prev.2 ++ [step.2.superDuty])

/-! ## Actuators (src/app/actuators/__init__.py) and PowerManager
(src/app/managers/power_manager.py) -/

structure ActState where
  boiler_pwm : Nat
  superheater_pwm : Nat
  servo_current : ℚ
  servo_target : ℚ
  emergency_mode : Bool
  deriving Repr, DecidableEq

/-- `Actuators.set_boiler_duty`: clamp to [0, 1023] and store. -/
def set_boiler_duty (s : ActState) (v : ℤ) : ActState :=
  { s with boiler_pwm := (pyClamp 0 1023 v).toNat }

/-- `Actuators.set_superheater_duty`: clamp to [0, 1023] and store in
`_superheater_pwm` (exposed as the `superheater_pwm` property). -/
def set_superheater_duty (s : ActState) (v : ℤ) : ActState :=
  { s with superheater_pwm := (pyClamp 0 1023 v).toNat }

/-- `PowerManager.estimate_total_current` evaluated against the real
`Actuators` object from `main.py`.  `getattr(self.actuators, 'boiler_pwm',
0)` finds the `boiler_pwm` property; `getattr(self.actuators, 'super_pwm',
0)` finds nothing — the class exposes `superheater_pwm` — and falls back to
0, so the superheater never contributes to the estimate.  Servo draw is 0.5 A
when |current − target| > 1, else 0.05 A; logic baseline 0.1 A. -/
def estimate_total_current (s : ActState) : ℚ :=
  let heater_current : ℚ := 5 * ((s.boiler_pwm : ℚ) / 1023)
  let super_current : ℚ := 3 * ((0 : ℚ) / 1023)
  let servo_amps : ℚ := if |s.servo_current - s.servo_target| > 1 then 1/2 else 1/20
  heater_current + super_current + servo_amps + 1/10

/-- Outcome of `PowerManager.process` against the real `Actuators` object:
either normal completion with the updated actuator state, or the uncaught
`TypeError` raised by `self.actuators.safety_shutdown('POWER_BUDGET_EXCEEDED')`
— `Actuators.safety_shutdown(self)` accepts no cause argument, and this call
sits outside every `try` block of `process`. -/
inductive PowerResult
  | ok (s : ActState)
  | typeErr (s : ActState)
  deriving Repr, DecidableEq

/-- `PowerManager.process`: if the estimate exceeds the budget, shed the
superheater to 0, re-estimate, stop if within budget; else halve the boiler
duty (`int(cur_pwm * 0.5)`), re-estimate, stop if within budget; else the
servo step — `hasattr(self.actuators, 'set_servo_idle')` is False for the
real `Actuators` class, so it is a no-op — re-estimate, and if still over
budget call `safety_shutdown('POWER_BUDGET_EXCEEDED')`, which raises
TypeError.  (The `overcurrent_count` / `last_overcurrent_time` bookkeeping
fields influence nothing and are not modelled.) -/
def powerProcess (s : ActState) (power_budget_amps : ℚ) : PowerResult :=
  let amps := estimate_total_current s
  if amps > power_budget_amps then
    let s1 := set_superheater_duty s 0
    let amps2 := estimate_total_current s1
    if amps2 ≤ power_budget_amps then PowerResult.ok s1
    else
      let s2 := set_boiler_duty s1 (pyInt ((s1.boiler_pwm : ℚ) * (1/2)))
      let amps3 := estimate_total_current s2
      if amps3 ≤ power_budget_amps then PowerResult.ok s2
      else
        let amps4 := estimate_total_current s2
        if amps4 > power_budget_amps then PowerResult.typeErr s2
        else PowerResult.ok s2
  else PowerResult.ok s

/-! ## Config (src/app/config.py)

`validate_and_update_cv(cv_num, new_value, cv_table)`.  The CV table is
modelled as a partial map from CV numbers to rational values; the
int-coercion of integral floats in the source only changes the stored Python
type, not the numeric value, so it is invisible here.  Result messages are
modelled structurally, carrying the same data the source interpolates into
its f-strings. -/

/-- One row of the `CV_BOUNDS` table: (min, max, unit, description). -/
def CV_BOUNDS : Nat → Option (ℚ × ℚ × String × String)
  | 1 => some (1, 127, "addr", "DCC address")
  | 29 => some (0, 255, "flags", "Configuration flags")
  | 30 => some (0, 1, "bool", "Distress whistle enable")
  | 31 => some (-50, 50, "pwm", "Servo offset")
  | 32 => some (70, 207, "kPa", "Target pressure (user, kPa; default 124 kPa; 18.0 PSI reference)")
  | 35 => some (100, 220, "kPa", "Max boiler pressure (user, kPa; default 207 kPa; 30 PSI reference, Hornby safety valve)")
  | 33 => some (10, 50, "%", "Stiction breakout")
  | 34 => some (5, 30, "%", "Slip sensitivity")
  | 37 => some (1000, 2000, "mm*100", "Wheel radius")
  | 38 => some (8, 16, "segments", "Encoder segments")
  | 39 => some (100, 250, "km/h", "Prototype speed")
  | 40 => some (50, 120, "ratio", "Scale ratio")
  | 41 => some (60, 85, "degC", "Logic temp limit")
  | 42 => some (100, 120, "degC", "Boiler temp limit")
  | 43 => some (240, 270, "degC", "Superheater temp limit")
  | 44 => some (5, 100, "x100ms", "DCC timeout")
  | 45 => some (2, 50, "x100ms", "Power timeout")
  | 46 => some (40, 120, "pwm", "Servo neutral duty")
  | 47 => some (80, 160, "pwm", "Servo max duty")
  | 48 => some (0, 20, "deg", "Whistle offset")
  | 49 => some (500, 3000, "ms", "Servo travel time")
  | 84 => some (0, 1, "bool", "Graceful degradation enable")
  | 87 => some (5, 20, "cm/s2", "Sensor failure decel rate")
  | 88 => some (10, 60, "s", "Degraded mode timeout")
  | _ => none

/-- Numeric value of a digit run, most significant first. -/
def digitsVal (ds : List Char) : Nat :=
  ds.foldl (fun a c => a * 10 + (c.toNat - 48)) 0

/-- Longest leading run of decimal digits and the remainder. -/
def spanDigits : List Char → List Char × List Char
  | [] => ([], [])
  | c :: cs =>
      if c.isDigit then
        let r := spanDigits cs
        (c :: r.1, r.2)
      else ([], c :: cs)

/-- Drop the leading whitespace Python's `float()` strips. -/
def dropSpaces : List Char → List Char
  | [] => []
  | c :: cs =>
      if c = ' ' ∨ c = '\t' ∨ c = '\n' ∨ c = '\r' ∨ c = '\x0b' ∨ c = '\x0c' then
        dropSpaces cs
      else c :: cs

/-- Optional sign; returns (-1 or 1, remainder). -/
def parseSign : List Char → ℤ × List Char
  | '+' :: cs => (1, cs)
  | '-' :: cs => (-1, cs)
  | cs => (1, cs)

/-- Mantissa: `digits [. digits]` or `. digits`, at least one digit in
total.  Returns the value and the remainder. -/
def parseMantissa (cs : List Char) : Option (ℚ × List Char) :=
  let ip := spanDigits cs
  match ip.2 with
  | '.' :: rest =>
      let fp := spanDigits rest
      if ip.1.isEmpty ∧ fp.1.isEmpty then none
      else some ((digitsVal ip.1 : ℚ) + (digitsVal fp.1 : ℚ) / (10 : ℚ) ^ fp.1.length, fp.2)
  | _ => if ip.1.isEmpty then none else some ((digitsVal ip.1 : ℚ), ip.2)

/-- Optional exponent part `(e|E) [sign] digits`. -/
def parseExponent : List Char → Option (ℤ × List Char)
  | 'e' :: cs =>
      let sg := parseSign cs
      let ds := spanDigits sg.2
      if ds.1.isEmpty then none else some (sg.1 * (digitsVal ds.1 : ℤ), ds.2)
  | 'E' :: cs =>
      let sg := parseSign cs
      let ds := spanDigits sg.2
      if ds.1.isEmpty then none else some (sg.1 * (digitsVal ds.1 : ℤ), ds.2)
  | cs => some (0, cs)

/-- Model of Python's `float(new_value)` on the decimal grammar
`[ws] [sign] (digits [. digits] | . digits) [(e|E) [sign] digits] [ws]`.
The special spellings (`inf`, `nan`, digit-group underscores) are outside the
model; `inf`/`nan` inputs are rejected by the caller's bounds check in the
source just as a parse failure is, so the examined claim is unaffected. -/
def pyFloat (s : String) : Option ℚ :=
  let cs := dropSpaces s.toList
  let sg := parseSign cs
  match parseMantissa sg.2 with
  | none => none
  | some m =>
      match parseExponent m.2 with
      | none => none
      | some e =>
          if (dropSpaces e.2).isEmpty then
            some ((sg.1 : ℚ) * m.1 * (10 : ℚ) ^ (e.1 : ℤ))
          else none

/-- Structured form of the strings `validate_and_update_cv` returns. -/
inductive CvMsg
  | unknown (cv_num : Nat)
  | notANumber (cv_num : Nat) (raw : String)
  | outOfRange (cv_num : Nat) (lo hi : ℚ) (unit : String)
  | updated (cv_num : Nat) (description : String) (oldValue : Option ℚ) (newValue : ℚ) (unit : String)
  deriving Repr, DecidableEq

/-- The CV table: CV number to stored numeric value. -/
def CvTable := Nat → Option ℚ

/-- `validate_and_update_cv`: reject an unknown CV number, an unparseable
value, or an out-of-range value, leaving the table untouched; otherwise
store the parsed value and report the update. -/
def validate_and_update_cv (cv_num : Nat) (new_value : String) (cv_table : CvTable) :
    Bool × CvMsg × CvTable :=
  match CV_BOUNDS cv_num with
  | none => (false, CvMsg.unknown cv_num, cv_table)
  | some (min_val, max_val, unit, description) =>
      match pyFloat new_value with
      | none => (false, CvMsg.notANumber cv_num new_value, cv_table)
      | some parsed =>
          if ¬(min_val ≤ parsed ∧ parsed ≤ max_val) then
            (false, CvMsg.outOfRange cv_num min_val max_val unit, cv_table)
          else
            (true, CvMsg.updated cv_num description (cv_table cv_num) parsed unit,
              fun n => if n = cv_num then some parsed else cv_table n)

/-! ## MechanicalMapper (src/app/actuators/servo.py)

`update` writes duty values to the servo PWM channel; the embedding collects
the writes of one call as a list of integers.  `time.ticks_ms()` is sampled
once on entry (`now`) and once more after the 50 ms stiction-kick sleep;
the post-kick sample is passed in as `now2`. -/

structure MechState where
  current : ℚ
  target : ℚ
  last_t : ℤ
  stopped_t : ℤ
  is_sleeping : Bool
  was_stopped : Bool
  stiction_applied : Bool
  emergency_mode : Bool
  deriving Repr, DecidableEq

/-- `MechanicalMapper.__init__`: current and target at the CV46 neutral duty,
timers at boot, awake, marked stopped, no kick applied, not in emergency. -/
def mechInit (cv46 : ℤ) (bootTime : ℤ) : MechState :=
  { current := (cv46 : ℚ), target := (cv46 : ℚ), last_t := bootTime,
    stopped_t := bootTime, is_sleeping := false, was_stopped := true,
    stiction_applied := false, emergency_mode := false }

/-- Tail of `MechanicalMapper.update` shared by the kick and no-kick paths:
slew-rate limited movement of `current` toward `target` by at most
`v * dt` with `v = |cv47 - cv46| / (max(100, cv49) / 1000)`, then the duty
write `servo.duty(int(current))`. -/
def mechSlew (st : MechState) (cv46 cv47 cv49 : ℤ) (dt : ℚ) (writes : List ℤ) :
    MechState × List ℤ :=
  let v : ℚ := |((cv47 - cv46 : ℤ) : ℚ)| / (((max 100 cv49 : ℤ) : ℚ) / 1000)
  let step := v * dt
  let diff := st.target - st.current
  let cur2 := if |diff| ≤ step then st.target
    else st.current + (if diff > 0 then step else -step)
  ({ st with current := cur2, is_sleeping := false, was_stopped := false },
    writes ++ [pyInt cur2])

/-- `MechanicalMapper.update`: at target, fall asleep (duty 0) after 2000 ms
idle; in emergency mode snap to the target; otherwise apply the one-shot
stiction kick at `cv46 + 0.3 * (cv47 - cv46)` when starting a move above
neutral, then slew. -/
def update (st : MechState) (cv46 cv47 cv49 : ℤ) (now now2 : ℤ) :
    MechState × List ℤ :=
  let dt : ℚ := ((now - st.last_t : ℤ) : ℚ) / 1000
  let st := { st with last_t := now }
  if st.current = st.target then
    if st.is_sleeping = false ∧ now - st.stopped_t > 2000 then
      ({ st with
          is_sleeping := true, was_stopped := true,
          stiction_applied := false }, [0])
    else
      ({ st with was_stopped := true, stiction_applied := false }, [])
  else
    let st := { st with stopped_t := now }
    if st.emergency_mode then
      ({ st with current := st.target }, [pyInt st.target])
    else if st.was_stopped = true ∧ st.stiction_applied = false ∧
        st.target > (cv46 : ℚ) then
      let kick_duty : ℚ := (cv46 : ℚ) + ((cv47 : ℚ) - (cv46 : ℚ)) * (3/10)
      let dt2 : ℚ := ((now2 - now : ℤ) : ℚ) / 1000
      mechSlew { st with stiction_applied := true, last_t := now2 }
        cv46 cv47 cv49 dt2 [pyInt kick_duty]
    else
      mechSlew st cv46 cv47 cv49 dt []

/-- `MechanicalMapper.set_goal`: a percent outside [0, 100] raises ValueError
(`none`); otherwise the target duty is `cv46 + deg * (cv47 - cv46) / 90`,
where `deg` is `cv48 + 1 + percent/100 * (90 - (cv48 + 1))` for a positive
percent, `cv48` for the whistle, and 0 otherwise. -/
def set_goal (percent : ℚ) (whistle : Bool) (cv46 cv47 cv48 : ℤ) : Option ℚ :=
  if ¬(0 ≤ percent ∧ percent ≤ 100) then none
  else
    let pwm_per_deg : ℚ := ((cv47 - cv46 : ℤ) : ℚ) / 90
    let deg : ℚ :=
      if percent > 0 then
        let min_drive : ℚ := (cv48 : ℚ) + 1
        min_drive + (percent / 100) * (90 - min_drive)
      else if whistle then (cv48 : ℚ)
      else 0
    some ((cv46 : ℚ) + deg * pwm_per_deg)

/-! ## Locomotive.die (src/app/main.py)

The shutdown procedure is embedded as the ordered trace of its externally
visible actions. -/

inductive LocoAction
  | pressureShutdown
  | servoEmergencyOn
  | logEvent (eventType : String) (data : String)
  | persistBlackBox
  | servoTarget (value : ℚ)
  | mechUpdateCall
  | sleepMs (ms : Nat)
  | servoDuty (d : ℤ)
  | deepSleep
  deriving Repr, DecidableEq

/-- `Locomotive.die(cause, force_close_only)`: heaters off
(`pressure.shutdown()`), servo emergency mode, in-memory event log; the
black-box persistence only when not force-close-only; then the whistle
venting sequence — marked "always mandatory" in the source — drives the
servo to the CV48 value, sleeps 5 s, drives it to CV46, sleeps 0.5 s and
cuts servo power; finally deep sleep only when not force-close-only. -/
def die (cv46 cv48 : ℤ) (cause : String) (force_close_only : Bool) : List LocoAction :=
  [LocoAction.pressureShutdown, LocoAction.servoEmergencyOn,
    LocoAction.logEvent "SHUTDOWN" cause]
  ++ (if force_close_only then [] else [LocoAction.persistBlackBox])
  ++ [LocoAction.servoTarget (cv48 : ℚ), LocoAction.mechUpdateCall,
      LocoAction.sleepMs 5000, LocoAction.servoTarget (cv46 : ℚ),
      LocoAction.mechUpdateCall, LocoAction.sleepMs 500,
      LocoAction.servoDuty 0]
  ++ (if force_close_only then [] else [LocoAction.deepSleep])

/-! ## Predicates used by the theorem statements -/

/-- A value lies in the plausibility window of a temperature channel. -/
def inWindow (c : TempChannel) (q : ℚ) : Prop :=
  windowLo c ≤ q ∧ q ≤ windowHi c

/-- The last-valid caches of every temperature channel lie inside their
plausibility windows. -/
def cacheInv (st : SensorsState) : Prop :=
  inWindow TempChannel.boiler st.boilerCache ∧
    inWindow TempChannel.superheater st.superCache ∧
    inWindow TempChannel.logic st.logicCache

/-! ## Shared helper lemmas -/

/-- Truncation toward zero stays between integer bounds enclosing the
argument. -/
theorem pyInt_bounds {a b : ℤ} {q : ℚ} (ha : (a : ℚ) ≤ q) (hb : q ≤ (b : ℚ)) :
    a ≤ pyInt q ∧ pyInt q ≤ b := by
  unfold pyInt
  split
  · constructor
    · have h1 : ⌊-q⌋ ≤ -a := by
        have h2 : ⌊-q⌋ ≤ ⌊((-a : ℤ) : ℚ)⌋ :=
          Int.floor_le_floor (by push_cast; linarith)
        simpa using h2
      omega
    · have h2 : -b ≤ ⌊-q⌋ := Int.le_floor.mpr (by push_cast; linarith)
      omega
  · constructor
    · exact Int.le_floor.mpr ha
    · have h1 : (⌊q⌋ : ℚ) ≤ (b : ℚ) := le_trans (Int.floor_le q) hb
      exact_mod_cast h1

/-- `decodePacket` can only write `cmd & 0x1F` (at most 31) into
`current_speed`, or leave it unchanged. -/
theorem decodePacket_speed_le (st : DccState) (bits : List Nat) (now : Int)
    (h : st.currentSpeed ≤ 31) : (decodePacket st bits now).currentSpeed ≤ 31 := by
  unfold decodePacket
  dsimp only
  repeat' split
  all_goals simp_all [Nat.and_le_right]

/-- C9 helper: the speed bound is preserved by any sequence of packet
decodes. -/
theorem foldl_decodePacket_speed_le (packets : List (List Nat × Int)) :
    ∀ st : DccState, st.currentSpeed ≤ 31 →
      (packets.foldl (fun s p => decodePacket s p.1 p.2) st).currentSpeed ≤ 31 := by
  induction packets with
  | nil => intro st h; exact h
  | cons p ps ih =>
      intro st h
      exact ih _ (decodePacket_speed_le st p.1 p.2 h)

/-- C9: after any sequence of DCC packet decodes from boot,
`DCCDecoder.current_speed` lies in 0..31: both speed commands store
`cmd_byte & 0x1F`, so a decoded speed step can never reach the documented
0..127 range (e.g. step 64 is unreachable). -/
theorem C9_decoded_speed_bounded (cv29 cv1 cv17 cv18 : Nat) (bootTime : Int)
    (packets : List (List Nat × Int)) :
    (packets.foldl (fun s p => decodePacket s p.1 p.2)
        (dccInit cv29 cv1 cv17 cv18 bootTime)).currentSpeed ≤ 31 := by
  apply foldl_decodePacket_speed_le
  simp [dccInit]

/-- C3 counterexample: with CV44 = 10 (in the documented 5..100 range) and
an elapsed time of 700 ms, the claimed equivalence
`is_active() = true ↔ elapsed < CV44 × 100 ms` fails: the code compares
against a hard-coded 500 ms, so `is_active()` is false although
700 < 1000. -/
theorem C3_counterexample :
    ¬ (∀ cv44 : ℤ, 5 ≤ cv44 → cv44 ≤ 100 → ∀ now last_valid : ℤ,
        (isActive now last_valid = true ↔ now - last_valid < cv44 * 100)) := by
  intro h
  have h1 := (h 10 (by decide) (by decide) 700 0).mpr (by decide)
  simp [isActive] at h1

/-- C3 amended: `is_active()` returns true iff the elapsed time since the
last valid addressed packet is below the fixed 500 ms window — i.e.
CV44 × 100 ms only for the value CV44 = 5, independent of the stored CV44. -/
theorem C3_is_active_500ms (now last_valid : ℤ) :
    isActive now last_valid = true ↔ now - last_valid < 5 * 100 := by
  simp only [isActive, decide_eq_true_eq]
  norm_num

/-- C2: a single `Watchdog.check` call on a freshly booted watchdog, with
both the power-loss and the DCC-loss vectors simultaneously expired
(track 1000 mV < 1500 mV and no DCC activity at t = 2100 ms, with CV44 = 20
and CV45 = 8), invokes `loco.die` twice — first PWR_LOSS, then DCC_LOST —
because the PWR_LOSS call is not followed by a return; the claim that die is
invoked at most once per boot regardless of simultaneous fault vectors is
therefore violated. -/
theorem C2_double_die_in_one_check :
    (wdCheck (wdInit 0) 50 85 180 1000 false 75 110 250 20 8 2100).2
      = ["PWR_LOSS", "DCC_LOST"] := by
  decide

/-- C10: whenever `check_sensor_health` observes `failed_sensor_count == 0`
the mode is reset to NOMINAL, and if the mode was not already NOMINAL —
including CRITICAL — the degraded timer is cleared; the CRITICAL
classification is not latched by this method. -/
theorem C10_sensor_recovery_unlatches (st : WdState) (cv88 now : ℚ) :
    (wdCheckSensorHealth st 0 cv88 now).mode = WdMode.NOMINAL ∧
      (st.mode ≠ WdMode.NOMINAL →
        (wdCheckSensorHealth st 0 cv88 now).degradedStart = none) := by
  unfold wdCheckSensorHealth
  by_cases h88 : cv88 ≠ 0 <;> by_cases hm : st.mode = WdMode.NOMINAL <;>
    simp [h88, hm]

/-- C10 witness: a CRITICAL watchdog state with a pending degraded timer is
silently reset to NOMINAL with the timer cleared as soon as a zero failed
count is observed. -/
theorem C10_sensor_recovery_unlatches_witness :
    (wdCheckSensorHealth
        { pwr_t := 0, dcc_t := 0, shutdownInProgress := false,
          mode := WdMode.CRITICAL, degradedStart := some 3,
          degradedTimeout := 20 } 0 20 100).mode = WdMode.NOMINAL ∧
      (wdCheckSensorHealth
        { pwr_t := 0, dcc_t := 0, shutdownInProgress := false,
          mode := WdMode.CRITICAL, degradedStart := some 3,
          degradedTimeout := 20 } 0 20 100).degradedStart = none := by
  refine ⟨(C10_sensor_recovery_unlatches _ 20 100).1,
    (C10_sensor_recovery_unlatches _ 20 100).2 (by decide)⟩

/-- C1 counterexample: with the default CV46 = 77 and CV48 = 5, the
force-close-only shutdown trace still contains the 5 s whistle vent at the
CV48 position and the 0.5 s settle followed by the servo power cut, and the
first servo move is to CV48, not to the CV46 neutral — contradicting the
claim that the variant moves the servo to CV46 immediately without steps
(d) and (e). -/
theorem C1_force_close_counterexample :
    LocoAction.servoTarget ((5 : ℤ) : ℚ) ∈ die 77 5 "USER_ESTOP" true ∧
      LocoAction.sleepMs 5000 ∈ die 77 5 "USER_ESTOP" true ∧
      LocoAction.sleepMs 500 ∈ die 77 5 "USER_ESTOP" true ∧
      LocoAction.servoDuty 0 ∈ die 77 5 "USER_ESTOP" true ∧
      (die 77 5 "USER_ESTOP" true).getD 3 LocoAction.deepSleep
        ≠ LocoAction.servoTarget ((77 : ℤ) : ℚ) := by
  decide

/-- C1 amended: the force-close-only variant performs the heater shutdown,
sets the servo emergency mode and logs the event, skips only the black-box
persistence and the deep-sleep halt, and still executes the mandatory
whistle-vent sequence — servo to CV48, 5 s sleep, servo to CV46, 0.5 s
settle, servo power cut; the servo thus reaches CV46 only after the vent,
not immediately. -/
theorem C1_force_close_trace (cv46 cv48 : ℤ) (cause : String) :
    die cv46 cv48 cause true =
      [LocoAction.pressureShutdown, LocoAction.servoEmergencyOn,
        LocoAction.logEvent "SHUTDOWN" cause,
        LocoAction.servoTarget (cv48 : ℚ), LocoAction.mechUpdateCall,
        LocoAction.sleepMs 5000, LocoAction.servoTarget (cv46 : ℚ),
        LocoAction.mechUpdateCall, LocoAction.sleepMs 500,
        LocoAction.servoDuty 0] := by
  simp [die]

/-- A reading accepted by `is_reading_valid` lies in the channel window. -/
theorem is_reading_valid_iff (r : ℚ) (c : TempChannel) :
    is_reading_valid r c = true ↔ inWindow c r := by
  simp [is_reading_valid, inWindow]

/-- One `read_temps` step preserves the cache invariant. -/
theorem read_temps_cacheInv (st : SensorsState) (rb rs rl : ℚ)
    (h : cacheInv st) : cacheInv (read_temps st rb rs rl).2 := by
  obtain ⟨h1, h2, h3⟩ := h
  unfold read_temps readChannel cacheInv
  dsimp only
  refine ⟨?_, ?_, ?_⟩
  · split
    · rename_i hv; exact (is_reading_valid_iff _ _).mp hv
    · exact h1
  · split
    · rename_i hv; exact (is_reading_valid_iff _ _).mp hv
    · exact h2
  · split
    · rename_i hv; exact (is_reading_valid_iff _ _).mp hv
    · exact h3

/-- The fold of `read_temps` steps preserves the cache invariant. -/
theorem foldl_read_temps_cacheInv (inputs : List (ℚ × ℚ × ℚ)) :
    ∀ st : SensorsState, cacheInv st →
      cacheInv (inputs.foldl (fun s r => (read_temps s r.1 r.2.1 r.2.2).2) st) := by
  induction inputs with
  | nil => intro st h; exact h
  | cons x xs ih =>
      intro st h
      exact ih _ (read_temps_cacheInv st x.1 x.2.1 x.2.2 h)

/-- The cache invariant holds in every reachable sensor state. -/
theorem readTempsRun_cacheInv (inputs : List (ℚ × ℚ × ℚ)) :
    cacheInv (readTempsRun inputs) := by
  apply foldl_read_temps_cacheInv
  refine ⟨⟨?_, ?_⟩, ⟨?_, ?_⟩, ⟨?_, ?_⟩⟩ <;> decide

/-- C4: in any reachable sensor state, every temperature returned by
`read_temps` lies in its channel's plausibility window (boiler 0..150,
superheater 0..280, logic 0..100), and a channel whose converted reading
falls outside its window returns the cached last-valid value — itself inside
the window, starting from the 25.0 initial value — with health DEGRADED. -/
theorem C4_read_temps_window (inputs : List (ℚ × ℚ × ℚ)) (rb rs rl : ℚ) :
    (inWindow TempChannel.boiler (read_temps (readTempsRun inputs) rb rs rl).1.1 ∧
      inWindow TempChannel.superheater (read_temps (readTempsRun inputs) rb rs rl).1.2.1 ∧
      inWindow TempChannel.logic (read_temps (readTempsRun inputs) rb rs rl).1.2.2) ∧
    (is_reading_valid rb TempChannel.boiler = false →
      (read_temps (readTempsRun inputs) rb rs rl).1.1 = (readTempsRun inputs).boilerCache ∧
      (read_temps (readTempsRun inputs) rb rs rl).2.boilerHealth = SensorHealth.DEGRADED) ∧
    (is_reading_valid rs TempChannel.superheater = false →
      (read_temps (readTempsRun inputs) rb rs rl).1.2.1 = (readTempsRun inputs).superCache ∧
      (read_temps (readTempsRun inputs) rb rs rl).2.superHealth = SensorHealth.DEGRADED) ∧
    (is_reading_valid rl TempChannel.logic = false →
      (read_temps (readTempsRun inputs) rb rs rl).1.2.2 = (readTempsRun inputs).logicCache ∧
      (read_temps (readTempsRun inputs) rb rs rl).2.logicHealth = SensorHealth.DEGRADED) := by
  obtain ⟨h1, h2, h3⟩ := readTempsRun_cacheInv inputs
  refine ⟨⟨?_, ?_, ?_⟩, ?_, ?_, ?_⟩
  · unfold read_temps readChannel
    dsimp only
    split
    · rename_i hv; exact (is_reading_valid_iff _ _).mp hv
    · exact h1
  · unfold read_temps readChannel
    dsimp only
    split
    · rename_i hv; exact (is_reading_valid_iff _ _).mp hv
    · exact h2
  · unfold read_temps readChannel
    dsimp only
    split
    · rename_i hv; exact (is_reading_valid_iff _ _).mp hv
    · exact h3
  · intro hv
    unfold read_temps readChannel
    simp [hv]
  · intro hv
    unfold read_temps readChannel
    simp [hv]
  · intro hv
    unfold read_temps readChannel
    simp [hv]

/-- C4 witness: from the initial state (empty read history), a boiler
reading of 200 °C (outside 0..150) yields the cached 25.0 value with the
boiler channel DEGRADED, and all returned values are in-window. -/
theorem C4_read_temps_window_witness :
    inWindow TempChannel.boiler (read_temps (readTempsRun []) 200 25 25).1.1 ∧
      (read_temps (readTempsRun []) 200 25 25).1.1 = (readTempsRun []).boilerCache ∧
      (read_temps (readTempsRun []) 200 25 25).2.boilerHealth = SensorHealth.DEGRADED := by
  refine ⟨(C4_read_temps_window [] 200 25 25).1.1, ?_, ?_⟩
  · exact ((C4_read_temps_window [] 200 25 25).2.1 (by decide)).1
  · exact ((C4_read_temps_window [] 200 25 25).2.1 (by decide)).2

/-- C7: `validate_and_update_cv` rejects an unknown CV number, an
unparseable value string, or an out-of-range value with a failure result
carrying the corresponding descriptive message, leaving the table unchanged;
on success it stores exactly the parsed value under the CV number and leaves
every other entry unchanged, so a subsequent read returns the parsed
value. -/
theorem C7_validate_and_update_cv (cv_num : Nat) (new_value : String) (t : CvTable) :
    (CV_BOUNDS cv_num = none →
        validate_and_update_cv cv_num new_value t = (false, CvMsg.unknown cv_num, t)) ∧
    (∀ lo hi unit descr, CV_BOUNDS cv_num = some (lo, hi, unit, descr) →
        pyFloat new_value = none →
        validate_and_update_cv cv_num new_value t
          = (false, CvMsg.notANumber cv_num new_value, t)) ∧
    (∀ lo hi unit descr q, CV_BOUNDS cv_num = some (lo, hi, unit, descr) →
        pyFloat new_value = some q → ¬(lo ≤ q ∧ q ≤ hi) →
        validate_and_update_cv cv_num new_value t
          = (false, CvMsg.outOfRange cv_num lo hi unit, t)) ∧
    (∀ lo hi unit descr q, CV_BOUNDS cv_num = some (lo, hi, unit, descr) →
        pyFloat new_value = some q → lo ≤ q → q ≤ hi →
        (validate_and_update_cv cv_num new_value t).1 = true ∧
        (validate_and_update_cv cv_num new_value t).2.2 cv_num = some q ∧
        ∀ m, m ≠ cv_num → (validate_and_update_cv cv_num new_value t).2.2 m = t m) := by
  refine ⟨?_, ?_, ?_, ?_⟩
  · intro hb
    simp [validate_and_update_cv, hb]
  · intro lo hi unit descr hb hp
    simp [validate_and_update_cv, hb, hp]
  · intro lo hi unit descr q hb hp hr
    simp only [validate_and_update_cv, hb, hp]
    rw [if_pos hr]
  · intro lo hi unit descr q hb hp hlo hhi
    have hcond : ¬¬(lo ≤ q ∧ q ≤ hi) := not_not_intro ⟨hlo, hhi⟩
    refine ⟨?_, ?_, ?_⟩
    · simp only [validate_and_update_cv, hb, hp]
      rw [if_neg hcond]
    · simp only [validate_and_update_cv, hb, hp]
      rw [if_neg hcond]
      simp
    · intro m hm
      simp only [validate_and_update_cv, hb, hp]
      rw [if_neg hcond]
      simp [hm]

/-- C7 witness: on an initially empty table — CV99 is unknown; "abc" is not
a number for CV42; 500 is out of the CV42 range 100..120 and the table keeps
no value; 105 is accepted for CV42 and read back exactly. -/
theorem C7_validate_and_update_cv_witness :
    (validate_and_update_cv 99 "5" (fun _ => none)).1 = false ∧
      (validate_and_update_cv 99 "5" (fun _ => none)).2.2 99 = none ∧
      (validate_and_update_cv 42 "abc" (fun _ => none)).1 = false ∧
      (validate_and_update_cv 42 "500" (fun _ => none)).1 = false ∧
      (validate_and_update_cv 42 "500" (fun _ => none)).2.2 42 = none ∧
      (validate_and_update_cv 42 "105" (fun _ => none)).1 = true ∧
      (validate_and_update_cv 42 "105" (fun _ => none)).2.2 42 = some 105 := by
  have hp500 : pyFloat "500" = some 500 := by
    have h1 : pyFloat "500"
        = some (((1 : ℤ) : ℚ) * ((500 : ℕ) : ℚ) * (10 : ℚ) ^ (0 : ℤ)) := rfl
    rw [h1]; norm_num
  have hp105 : pyFloat "105" = some 105 := by
    have h1 : pyFloat "105"
        = some (((1 : ℤ) : ℚ) * ((105 : ℕ) : ℚ) * (10 : ℚ) ^ (0 : ℤ)) := rfl
    rw [h1]; norm_num
  have h99 := (C7_validate_and_update_cv 99 "5" (fun _ => none)).1 rfl
  have hab := (C7_validate_and_update_cv 42 "abc" (fun _ => none)).2.1
    100 120 "degC" "Boiler temp limit" rfl rfl
  have h500 := (C7_validate_and_update_cv 42 "500" (fun _ => none)).2.2.1
    100 120 "degC" "Boiler temp limit" 500 rfl hp500 (by decide)
  have h105 := (C7_validate_and_update_cv 42 "105" (fun _ => none)).2.2.2
    100 120 "degC" "Boiler temp limit" 105 rfl hp105 (by decide) (by decide)
  refine ⟨?_, ?_, ?_, ?_, ?_, h105.1, h105.2.1⟩
  · rw [h99]
  · rw [h99]
  · rw [hab]
  · rw [h500]
  · rw [h500]

/-- C5: with the regulator wiring of `run()` (`regulator_open = 1 if
dcc_speed > 0 else 0`, a level rather than the closed-to-open transition
named in the adjacent comment and in the `process` docstring), four 0.5 s
pressure ticks at speed step 10 — 2.0 s of open regulator, twice the 1.0 s
spike duration — keep the superheater duty at 1023 on every tick, because
the spike timer is re-armed each call; with the documented transition pulse
instead, the duty is 1023 for the 1.0 s spike and then resumes the staged
value 511 for the ≥ 90 % pressure band. -/
theorem C5_spike_rearmed_under_level_wiring :
    (pmRunMainWiring 35 250 35 10 (1/2) 4).2 = [1023, 1023, 1023, 1023] ∧
      (pmRunPulseWiring 35 250 35 (1/2) 4).2 = [1023, 511, 511, 511] := by
  have e1 : pmProcess pmInit 35 250 35 1 0 (2⁻¹) 0
      = ({ integral := 0, lastError := 0, spikeTimer := 2⁻¹, sensorAvailable := true },
         { boilerDuty := 0, superDuty := 1023 }) := by
    norm_num [pmProcess, pmInit, stagedDuty, pyInt]
  have e2 : pmProcess
        { integral := 0, lastError := 0, spikeTimer := 2⁻¹, sensorAvailable := true }
        35 250 35 1 0 (2⁻¹) 0
      = ({ integral := 0, lastError := 0, spikeTimer := 2⁻¹, sensorAvailable := true },
         { boilerDuty := 0, superDuty := 1023 }) := by
    norm_num [pmProcess, stagedDuty, pyInt]
  have e3 : pmProcess
        { integral := 0, lastError := 0, spikeTimer := 2⁻¹, sensorAvailable := true }
        35 250 35 0 0 (2⁻¹) 0
      = ({ integral := 0, lastError := 0, spikeTimer := 0, sensorAvailable := true },
         { boilerDuty := 0, superDuty := 511 }) := by
    norm_num [pmProcess, stagedDuty, pyInt]
  have e4 : pmProcess
        { integral := 0, lastError := 0, spikeTimer := 0, sensorAvailable := true }
        35 250 35 0 0 (2⁻¹) 0
      = ({ integral := 0, lastError := 0, spikeTimer := 0, sensorAvailable := true },
         { boilerDuty := 0, superDuty := 511 }) := by
    norm_num [pmProcess, stagedDuty, pyInt]
  constructor
  · simp [pmRunMainWiring, mainRegulatorOpen, e1, e2]
  · simp [pmRunPulseWiring, e1, e3, e4]

/-- C6: against the real `Actuators` object, shedding proceeds in the
claimed order and stops as soon as the estimate is within budget — with
boiler at 1023 and the default 4.5 A budget the superheater is zeroed, the
boiler halved to 511 and shedding stops there — but when the budget (CV51
set to 1.0 A here) is still exceeded after the no-op servo step, the final
escalation does not shut down with cause POWER_BUDGET_EXCEEDED: the call
`safety_shutdown('POWER_BUDGET_EXCEEDED')` raises TypeError, because
`Actuators.safety_shutdown` accepts no cause argument.  (The superheater
shed can never be the step that restores the budget, since the estimate
reads the nonexistent `super_pwm` attribute and always counts 0 A for the
superheater.) -/
theorem C6_power_shed_trace :
    powerProcess
        { boiler_pwm := 1023, superheater_pwm := 1023, servo_current := 77,
          servo_target := 77, emergency_mode := false } 1
      = PowerResult.typeErr
        { boiler_pwm := 511, superheater_pwm := 0, servo_current := 77,
          servo_target := 77, emergency_mode := false } ∧
    powerProcess
        { boiler_pwm := 1023, superheater_pwm := 1023, servo_current := 77,
          servo_target := 77, emergency_mode := false } (9/2)
      = PowerResult.ok
        { boiler_pwm := 511, superheater_pwm := 0, servo_current := 77,
          servo_target := 77, emergency_mode := false } := by
  have hfl : pyInt (((1023 : ℕ) : ℚ) * (1/2)) = 511 := by
    unfold pyInt
    rw [if_neg (by norm_num)]
    norm_num [Int.floor_eq_iff]
  have hfl2 : pyInt ((1023 : ℚ) / 2) = 511 := by
    unfold pyInt
    rw [if_neg (by norm_num)]
    norm_num [Int.floor_eq_iff]
  have ht : (511 : ℤ).toNat = 511 := rfl
  constructor <;>
    norm_num [powerProcess, estimate_total_current, set_boiler_duty,
      set_superheater_duty, pyClamp, hfl, hfl2, sup_eq_max, inf_eq_min,
      max_def, min_def, ht]

/-- The slewing tail of `update` keeps the current duty between in-bounds
current and target values, leaves the target unchanged, and appends one duty
write that is within [cv46, cv47]. -/
theorem mechSlew_bounds (st : MechState) (cv46 cv47 cv49 : ℤ) (dt : ℚ) (ws : List ℤ)
    (hcv : cv46 ≤ cv47) (hdt : 0 ≤ dt)
    (hc1 : (cv46 : ℚ) ≤ st.current) (hc2 : st.current ≤ (cv47 : ℚ))
    (ht1 : (cv46 : ℚ) ≤ st.target) (ht2 : st.target ≤ (cv47 : ℚ)) :
    ((cv46 : ℚ) ≤ (mechSlew st cv46 cv47 cv49 dt ws).1.current ∧
      (mechSlew st cv46 cv47 cv49 dt ws).1.current ≤ (cv47 : ℚ)) ∧
    ((mechSlew st cv46 cv47 cv49 dt ws).1.target = st.target) ∧
    ∀ w ∈ (mechSlew st cv46 cv47 cv49 dt ws).2, w ∈ ws ∨ (cv46 ≤ w ∧ w ≤ cv47) := by
  have hD : (0 : ℚ) < ((max 100 cv49 : ℤ) : ℚ) / 1000 := by
    have h100 : (100 : ℤ) ≤ max 100 cv49 := le_max_left _ _
    have : (100 : ℚ) ≤ ((max 100 cv49 : ℤ) : ℚ) := by exact_mod_cast h100
    linarith
  have hv : (0 : ℚ) ≤ |((cv47 - cv46 : ℤ) : ℚ)| / (((max 100 cv49 : ℤ) : ℚ) / 1000) :=
    div_nonneg (abs_nonneg _) (le_of_lt hD)
  have hstep : (0 : ℚ) ≤ |((cv47 - cv46 : ℤ) : ℚ)| / (((max 100 cv49 : ℤ) : ℚ) / 1000) * dt :=
    mul_nonneg hv hdt
  unfold mechSlew
  dsimp only
  set step : ℚ := |((cv47 - cv46 : ℤ) : ℚ)| / (((max 100 cv49 : ℤ) : ℚ) / 1000) * dt with hstepdef
  have hcur2 : (cv46 : ℚ) ≤
      (if |st.target - st.current| ≤ step then st.target
        else st.current + (if st.target - st.current > 0 then step else -step)) ∧
      (if |st.target - st.current| ≤ step then st.target
        else st.current + (if st.target - st.current > 0 then step else -step)) ≤ (cv47 : ℚ) := by
    split
    · exact ⟨ht1, ht2⟩
    · rename_i habs
      push_neg at habs
      split
      · rename_i hpos
        rw [abs_of_pos (by linarith)] at habs
        constructor <;> linarith
      · rename_i hneg
        push_neg at hneg
        have hne : st.target - st.current ≤ 0 := hneg
        rw [abs_of_nonpos (by linarith)] at habs
        constructor <;> linarith
  refine ⟨hcur2, rfl, ?_⟩
  intro w hw
  rw [List.mem_append] at hw
  rcases hw with h | h
  · exact Or.inl h
  · right
    rw [List.mem_singleton] at h
    subst h
    exact pyInt_bounds hcur2.1 hcur2.2

/-- Every duty written by one `update` call from an in-bounds state is
either within [cv46, cv47] or is the jitter-sleep power-down write of 0, and
the current duty stays within bounds. -/
theorem update_bounds (st : MechState) (cv46 cv47 cv49 : ℤ) (now now2 : ℤ)
    (hcv : cv46 ≤ cv47)
    (hc1 : (cv46 : ℚ) ≤ st.current) (hc2 : st.current ≤ (cv47 : ℚ))
    (ht1 : (cv46 : ℚ) ≤ st.target) (ht2 : st.target ≤ (cv47 : ℚ))
    (hn1 : st.last_t ≤ now) (hn2 : now ≤ now2) :
    (∀ w ∈ (update st cv46 cv47 cv49 now now2).2,
        (cv46 ≤ w ∧ w ≤ cv47) ∨
          (w = 0 ∧ (update st cv46 cv47 cv49 now now2).1.is_sleeping = true)) ∧
    ((cv46 : ℚ) ≤ (update st cv46 cv47 cv49 now now2).1.current ∧
      (update st cv46 cv47 cv49 now now2).1.current ≤ (cv47 : ℚ)) := by
  have hcast : ((cv46 : ℤ) : ℚ) ≤ ((cv47 : ℤ) : ℚ) := by exact_mod_cast hcv
  unfold update
  dsimp only
  split
  · split
    · refine ⟨?_, hc1, hc2⟩
      intro w hw
      rw [List.mem_singleton] at hw
      subst hw
      exact Or.inr ⟨rfl, rfl⟩
    · refine ⟨?_, hc1, hc2⟩
      intro w hw
      simp at hw
  · split
    · refine ⟨?_, ht1, ht2⟩
      intro w hw
      rw [List.mem_singleton] at hw
      subst hw
      exact Or.inl (pyInt_bounds ht1 ht2)
    · split
      · have hdt2 : (0 : ℚ) ≤ ((now2 - now : ℤ) : ℚ) / 1000 := by
          have h1 : (0 : ℚ) ≤ ((now2 - now : ℤ) : ℚ) := by
            have : (0 : ℤ) ≤ now2 - now := by omega
            exact_mod_cast this
          linarith
        have hk1 : (cv46 : ℚ) ≤ (cv46 : ℚ) + ((cv47 : ℚ) - (cv46 : ℚ)) * (3/10) := by
          have h1 := mul_nonneg (sub_nonneg.mpr hcast) (by norm_num : (0:ℚ) ≤ 3/10)
          linarith
        have hk2 : (cv46 : ℚ) + ((cv47 : ℚ) - (cv46 : ℚ)) * (3/10) ≤ (cv47 : ℚ) := by
          nlinarith
        have hres := mechSlew_bounds
          { st with stopped_t := now, last_t := now2, stiction_applied := true }
          cv46 cv47 cv49 (((now2 - now : ℤ) : ℚ) / 1000)
          [pyInt ((cv46 : ℚ) + ((cv47 : ℚ) - (cv46 : ℚ)) * (3/10))]
          hcv hdt2 hc1 hc2 ht1 ht2
        refine ⟨?_, hres.1⟩
        intro w hw
        rcases hres.2.2 w hw with h | h
        · rw [List.mem_singleton] at h
          subst h
          exact Or.inl (pyInt_bounds hk1 hk2)
        · exact Or.inl h
      · have hdt : (0 : ℚ) ≤ ((now - st.last_t : ℤ) : ℚ) / 1000 := by
          have h1 : (0 : ℚ) ≤ ((now - st.last_t : ℤ) : ℚ) := by
            have : (0 : ℤ) ≤ now - st.last_t := by omega
            exact_mod_cast this
          linarith
        have hres := mechSlew_bounds
          { st with stopped_t := now, last_t := now }
          cv46 cv47 cv49 (((now - st.last_t : ℤ) : ℚ) / 1000) []
          hcv hdt hc1 hc2 ht1 ht2
        refine ⟨?_, hres.1⟩
        intro w hw
        rcases hres.2.2 w hw with h | h
        · simp at h
        · exact Or.inl h

/-- A valid `set_goal` request always produces a target within
[cv46, cv47] provided neutral ≤ max and CV48 respects its documented 0..20
bounds. -/
theorem set_goal_bounds (percent : ℚ) (whistle : Bool) (cv46 cv47 cv48 : ℤ)
    (hcv : cv46 ≤ cv47) (h48lo : 0 ≤ cv48) (h48hi : cv48 ≤ 20)
    (hplo : 0 ≤ percent) (hphi : percent ≤ 100) :
    ∃ tgt, set_goal percent whistle cv46 cv47 cv48 = some tgt ∧
      (cv46 : ℚ) ≤ tgt ∧ tgt ≤ (cv47 : ℚ) := by
  have hcast : ((cv46 : ℤ) : ℚ) ≤ ((cv47 : ℤ) : ℚ) := by exact_mod_cast hcv
  have h48c1 : (0 : ℚ) ≤ ((cv48 : ℤ) : ℚ) := by exact_mod_cast h48lo
  have h48c2 : ((cv48 : ℤ) : ℚ) ≤ 20 := by exact_mod_cast h48hi
  unfold set_goal
  rw [if_neg (not_not_intro ⟨hplo, hphi⟩)]
  refine ⟨_, rfl, ?_⟩
  have hd : (0 : ℚ) ≤ ((cv47 - cv46 : ℤ) : ℚ) := by
    have : (0 : ℤ) ≤ cv47 - cv46 := by omega
    exact_mod_cast this
  have hdeq : ((cv47 - cv46 : ℤ) : ℚ) = ((cv47 : ℤ) : ℚ) - ((cv46 : ℤ) : ℚ) := by
    push_cast
    ring
  set deg : ℚ := (if percent > 0 then
      ((cv48 : ℚ) + 1) + (percent / 100) * (90 - ((cv48 : ℚ) + 1))
    else if whistle then (cv48 : ℚ) else 0) with hdegdef
  have hdeg : 0 ≤ deg ∧ deg ≤ 90 := by
    rw [hdegdef]
    split
    · rename_i hp
      have h1 : (0 : ℚ) ≤ percent / 100 := by linarith
      have h2 : percent / 100 ≤ 1 := by linarith
      have h3 : (0 : ℚ) ≤ 90 - ((cv48 : ℚ) + 1) := by linarith
      have h4 := mul_nonneg h1 h3
      have h5 := mul_le_of_le_one_left h3 h2
      constructor <;> linarith
    · split
      · constructor <;> linarith
      · constructor <;> norm_num
  have hmul1 : (0 : ℚ) ≤ deg * (((cv47 - cv46 : ℤ) : ℚ) / 90) :=
    mul_nonneg hdeg.1 (div_nonneg hd (by norm_num))
  have hmul2 : deg * (((cv47 - cv46 : ℤ) : ℚ) / 90) ≤ ((cv47 - cv46 : ℤ) : ℚ) := by
    have h1 := mul_le_mul_of_nonneg_right hdeg.2 (div_nonneg hd (by norm_num : (0:ℚ) ≤ 90))
    have h2 : (90 : ℚ) * (((cv47 - cv46 : ℤ) : ℚ) / 90) = ((cv47 - cv46 : ℤ) : ℚ) := by
      ring
    linarith
  constructor
  · linarith
  · linarith [hmul2, hdeq]

/-- C8 counterexample: with default CVs (neutral 77, max 128), the very
first `update` call 2001 ms after boot takes the jitter-sleep branch and
writes duty 0, which is outside [CV46, CV47] = [77, 128] — so the claim
that the duty written at every tick lies within [CV46, CV47] fails. -/
theorem C8_jitter_sleep_counterexample :
    (update (mechInit 77 0) 77 128 1000 2001 2001).2 = [0] ∧
      ¬ (∀ w ∈ (update (mechInit 77 0) 77 128 1000 2001 2001).2,
          (77 : ℤ) ≤ w ∧ w ≤ 128) := by
  decide

/-- C8 amended: the servo target computed from any valid request (percent in
[0, 100], whistle flag) lies within [CV46, CV47], and from a state whose
current and target duties are within bounds every duty the shaper writes is
within [CV46, CV47] except the jitter-sleep power-down write of 0 (after
which the state is marked sleeping); the tracked current duty also stays
within bounds.  Hypotheses: CV46 ≤ CV47, CV48 within its documented 0..20
validation bounds, and non-decreasing time stamps. -/
theorem C8_servo_bounds (cv46 cv47 cv48 cv49 : ℤ) (st : MechState)
    (now now2 : ℤ) (percent : ℚ) (whistle : Bool)
    (hcv : cv46 ≤ cv47) (h48lo : 0 ≤ cv48) (h48hi : cv48 ≤ 20)
    (hplo : 0 ≤ percent) (hphi : percent ≤ 100)
    (hc1 : (cv46 : ℚ) ≤ st.current) (hc2 : st.current ≤ (cv47 : ℚ))
    (ht1 : (cv46 : ℚ) ≤ st.target) (ht2 : st.target ≤ (cv47 : ℚ))
    (hn1 : st.last_t ≤ now) (hn2 : now ≤ now2) :
    (∃ tgt, set_goal percent whistle cv46 cv47 cv48 = some tgt ∧
        (cv46 : ℚ) ≤ tgt ∧ tgt ≤ (cv47 : ℚ)) ∧
    (∀ w ∈ (update st cv46 cv47 cv49 now now2).2,
        (cv46 ≤ w ∧ w ≤ cv47) ∨
          (w = 0 ∧ (update st cv46 cv47 cv49 now now2).1.is_sleeping = true)) ∧
    ((cv46 : ℚ) ≤ (update st cv46 cv47 cv49 now now2).1.current ∧
      (update st cv46 cv47 cv49 now now2).1.current ≤ (cv47 : ℚ)) :=
  ⟨set_goal_bounds percent whistle cv46 cv47 cv48 hcv h48lo h48hi hplo hphi,
    (update_bounds st cv46 cv47 cv49 now now2 hcv hc1 hc2 ht1 ht2 hn1 hn2).1,
    (update_bounds st cv46 cv47 cv49 now now2 hcv hc1 hc2 ht1 ht2 hn1 hn2).2⟩

/-- C8 witness: default CVs (77, 128, whistle offset 5, travel 1000 ms), a
state at duty 77 moving to target 100, a 50 % request: the target is in
bounds and the update writes stay in bounds or are the sleep write. -/
theorem C8_servo_bounds_witness :
    (∃ tgt, set_goal 50 false 77 128 5 = some tgt ∧
        ((77 : ℤ) : ℚ) ≤ tgt ∧ tgt ≤ ((128 : ℤ) : ℚ)) ∧
    (∀ w ∈ (update ⟨77, 100, 0, 0, false, true, false, false⟩ 77 128 1000 20 20).2,
        ((77 : ℤ) ≤ w ∧ w ≤ (128 : ℤ)) ∨
          (w = 0 ∧
            (update ⟨77, 100, 0, 0, false, true, false, false⟩ 77 128 1000 20 20).1.is_sleeping
              = true)) ∧
    (((77 : ℤ) : ℚ) ≤ (update ⟨77, 100, 0, 0, false, true, false, false⟩ 77 128 1000 20 20).1.current ∧
      (update ⟨77, 100, 0, 0, false, true, false, false⟩ 77 128 1000 20 20).1.current
        ≤ ((128 : ℤ) : ℚ)) :=
  C8_servo_bounds 77 128 5 1000 ⟨77, 100, 0, 0, false, true, false, false⟩ 20 20 50 false
    (by decide) (by decide) (by decide) (by decide) (by decide)
    (by decide) (by decide) (by decide) (by decide) (by decide) (by decide)
